import Mathlib

/-!
Verification development for the `react-url2file` conversion pipeline.

The repository converts URL-bearing cells of a tabular store into attachment
cells: per record it normalizes the cell value to a URL, validates it, fetches
the content (relay first, direct second), uploads the bytes, merges the
attachment set under an overwrite/append policy, writes it back and verifies
the write.  The definitions below are a shallow embedding of the source:

* `parseIntJS`, `jsURL`, `encodeURIComponent`, `percentDecode` model the
  JavaScript platform primitives the source calls (`parseInt`, `new URL`,
  `encodeURIComponent`, `decodeURIComponent`), restricted to the behaviour
  the repository exercises;
* `isValidUrl`, `getFileNameFromUrl`, `downloadFileFromUrl` embed
  `src/utils/fileUtils.ts`;
* `handler` embeds the relay endpoint (`api/proxy.js`);
* `normalizeCell`, `buildAttachmentSet`, `classifyVerify`, `processRecord`
  and `runBatch` embed the per-record driver and batch loop of
  `handleConvert` in `App.tsx`.

Host calls (cell reads, uploads, writes, HTTP responses) are supplied by
explicit "world" records; an exception thrown by a host call is modelled as
an `Except.error` value of the corresponding world field.  All string
operations are implemented by structural recursion over `List Char` /
`List UInt8` so that every definition evaluates inside the kernel.
-/

/-- 20 MiB: the hard payload ceiling used by both the fetcher and the relay
(`20 * 1024 * 1024` in the source). -/
def maxFileSize : Nat := 20 * 1024 * 1024

/-- ASCII whitespace, the fragment of the JavaScript whitespace class the
repository can encounter. -/
def isJsWs (c : Char) : Bool :=
  c == ' ' || c == '\t' || c == '\n' || c == '\r' || c.toNat == 11 || c.toNat == 12

/-- JavaScript `String.prototype.trim` on the character list. -/
def trimChars (l : List Char) : List Char :=
  ((l.dropWhile isJsWs).reverse.dropWhile isJsWs).reverse

/-- JavaScript `url.trim()`. -/
def jsTrim (s : String) : String := String.mk (trimChars s.data)

/-- Model of JavaScript `parseInt(s, 10)`: skip leading whitespace, read an
optional sign and then the longest run of leading decimal digits; `none`
models `NaN` (no digit found). -/
def parseIntJS (s : String) : Option Int :=
  let l := s.data.dropWhile isJsWs
  let signAndRest : Bool × List Char :=
    match l with
    | '-' :: rest => (true, rest)
    | '+' :: rest => (false, rest)
    | _ => (false, l)
  let ds := signAndRest.2.takeWhile Char.isDigit
  if ds = [] then none
  else
    let n : Nat := ds.foldl (fun acc c => acc * 10 + (c.toNat - 48)) 0
    some (if signAndRest.1 then -(n : Int) else (n : Int))

/-- Is `pat` a prefix of the character list (boolean, structural)? -/
def isPrefixList : List Char → List Char → Bool
  | [], _ => true
  | _ :: _, [] => false
  | p :: ps, c :: cs => p == c && isPrefixList ps cs

/-- Does `pat` occur as a contiguous substring (JavaScript
`String.prototype.includes`)? -/
def containsSubList (pat : List Char) : List Char → Bool
  | [] => pat.isEmpty
  | c :: cs => isPrefixList pat (c :: cs) || containsSubList pat cs

/-- JavaScript `s.includes(pat)`. -/
def includesSub (s pat : String) : Bool := containsSubList pat.data s.data

/-- Split at the first occurrence of character `c`: returns the part before
and the part after, or `none` when `c` does not occur. -/
def splitFirstChar (c : Char) : List Char → Option (List Char × List Char)
  | [] => none
  | x :: xs =>
    if x == c then some ([], xs)
    else
      match splitFirstChar c xs with
      | some p => some (x :: p.1, p.2)
      | none => none

/-- The result of a successful `new URL(s)` call, restricted to the fields
the repository reads. -/
structure JsUrl where
  protocol : String
  host : String
  pathname : String
deriving DecidableEq, Repr

/-- Scheme characters after the first (WHATWG: ASCII alphanumeric, `+`, `-`,
`.`). -/
def isSchemeChar (c : Char) : Bool :=
  c.isAlphanum || c == '+' || c == '-' || c == '.'

/-- Model of the platform URL parser `new URL(s)`: `none` models the
constructor throwing.  The string must start with `scheme:`; for the special
schemes (`http`, `https`, `ws`, `wss`, `ftp`) the remainder, after ignoring
leading slashes, must contain a non-empty host which extends to the next
`/`, `\`, `?` or `#`; any other scheme parses as an opaque-path URL. -/
def jsURL (s : String) : Option JsUrl :=
  match splitFirstChar ':' s.data with
  | none => none
  | some (schemeChars, restChars) =>
    match schemeChars with
    | [] => none
    | c0 :: _ =>
      if ¬ (c0.isAlpha && schemeChars.all isSchemeChar) then none
      else
        let scheme := String.mk (schemeChars.map Char.toLower)
        if scheme = "http" ∨ scheme = "https" ∨ scheme = "ws" ∨ scheme = "wss" ∨ scheme = "ftp" then
          let r := restChars.dropWhile (fun c => c == '/' || c == '\\')
          let hostChars := r.takeWhile (fun c => ¬ (c == '/' || c == '\\' || c == '?' || c == '#'))
          if hostChars = [] then none
          else
            let afterHost := r.drop hostChars.length
            let pathChars := afterHost.takeWhile (fun c => ¬ (c == '?' || c == '#'))
            some { protocol := scheme ++ ":", host := String.mk hostChars
                   pathname := if pathChars = [] then "/" else String.mk pathChars }
        else
          some { protocol := scheme ++ ":", host := ""
                 pathname := String.mk (restChars.takeWhile (fun c => ¬ (c == '?' || c == '#'))) }

/-- `isValidUrl` from `src/utils/fileUtils.ts`: false for the empty string,
otherwise `new URL(url)` must succeed and the protocol must be exactly
`http:` or `https:`; a parse failure is caught and yields false. -/
def isValidUrl (url : String) : Bool :=
  if url = "" then false
  else
    match jsURL url with
    | some u => u.protocol == "http:" || u.protocol == "https:"
    | none => false

/-- UTF-8 encoding of one character. -/
def utf8EncodeChar (c : Char) : List UInt8 :=
  let n := c.toNat
  if n < 128 then [UInt8.ofNat n]
  else if n < 2048 then
    [UInt8.ofNat (192 + n / 64), UInt8.ofNat (128 + n % 64)]
  else if n < 65536 then
    [UInt8.ofNat (224 + n / 4096), UInt8.ofNat (128 + (n / 64) % 64),
     UInt8.ofNat (128 + n % 64)]
  else
    [UInt8.ofNat (240 + n / 262144), UInt8.ofNat (128 + (n / 4096) % 64),
     UInt8.ofNat (128 + (n / 64) % 64), UInt8.ofNat (128 + n % 64)]

/-- UTF-8 encoding of a character list. -/
def utf8Encode (l : List Char) : List UInt8 :=
  l.foldr (fun c acc => utf8EncodeChar c ++ acc) []

/-- A UTF-8 continuation byte. -/
def contByte (b : UInt8) : Bool := 128 ≤ b.toNat && b.toNat ≤ 191

/-- UTF-8 decoding; `none` on any malformed sequence (used to model the
`URIError` thrown by `decodeURIComponent`). -/
def utf8Decode : List UInt8 → Option (List Char)
  | [] => some []
  | b :: rest =>
    let n0 := b.toNat
    if n0 ≤ 127 then
      (utf8Decode rest).map (Char.ofNat n0 :: ·)
    else if 194 ≤ n0 ∧ n0 ≤ 223 then
      match rest with
      | b2 :: rest2 =>
        if contByte b2 then
          (utf8Decode rest2).map (Char.ofNat ((n0 - 192) * 64 + (b2.toNat - 128)) :: ·)
        else none
      | [] => none
    else if 224 ≤ n0 ∧ n0 ≤ 239 then
      match rest with
      | b2 :: b3 :: rest3 =>
        if contByte b2 && contByte b3 then
          let n := (n0 - 224) * 4096 + (b2.toNat - 128) * 64 + (b3.toNat - 128)
          if 2048 ≤ n ∧ ¬ (55296 ≤ n ∧ n ≤ 57343) then
            (utf8Decode rest3).map (Char.ofNat n :: ·)
          else none
        else none
      | _ => none
    else if 240 ≤ n0 ∧ n0 ≤ 244 then
      match rest with
      | b2 :: b3 :: b4 :: rest4 =>
        if contByte b2 && contByte b3 && contByte b4 then
          let n := (n0 - 240) * 262144 + (b2.toNat - 128) * 4096 +
                   (b3.toNat - 128) * 64 + (b4.toNat - 128)
          if 65536 ≤ n ∧ n ≤ 1114111 then
            (utf8Decode rest4).map (Char.ofNat n :: ·)
          else none
        else none
      | _ => none
    else none

/-- Bytes left unescaped by JavaScript `encodeURIComponent`:
`A-Z a-z 0-9 - _ . ! ~ * ' ( )`. -/
def isUnescapedByte (b : UInt8) : Bool :=
  let n := b.toNat
  (65 ≤ n && n ≤ 90) || (97 ≤ n && n ≤ 122) || (48 ≤ n && n ≤ 57) ||
  n == 45 || n == 95 || n == 46 || n == 33 || n == 126 ||
  n == 42 || n == 39 || n == 40 || n == 41

/-- Upper-case hexadecimal digit for `n < 16`. -/
def hexDigit (n : Nat) : Char :=
  if n < 10 then Char.ofNat (48 + n) else Char.ofNat (55 + n)

/-- Model of JavaScript `encodeURIComponent`: percent-encode every UTF-8 byte
outside the unescaped set. -/
def encodeURIComponent (s : String) : String :=
  String.mk ((utf8Encode s.data).foldr
    (fun b acc =>
      if isUnescapedByte b then Char.ofNat b.toNat :: acc
      else '%' :: hexDigit (b.toNat / 16) :: hexDigit (b.toNat % 16) :: acc)
    [])

/-- Value of a hexadecimal digit byte, `none` for a non-hex byte. -/
def hexVal (b : UInt8) : Option Nat :=
  let n := b.toNat
  if 48 ≤ n ∧ n ≤ 57 then some (n - 48)
  else if 65 ≤ n ∧ n ≤ 70 then some (n - 55)
  else if 97 ≤ n ∧ n ≤ 102 then some (n - 87)
  else none

/-- Decode `%HH` escapes in a UTF-8 byte list; `none` models a `URIError`
(truncated or non-hex escape). -/
def percentDecodeBytes : List UInt8 → Option (List UInt8)
  | [] => some []
  | 37 :: a :: b :: rest =>
    match hexVal a, hexVal b, percentDecodeBytes rest with
    | some hi, some lo, some tail => some ((UInt8.ofNat (hi * 16 + lo)) :: tail)
    | _, _, _ => none
  | 37 :: _ => none
  | b :: rest =>
    match percentDecodeBytes rest with
    | some tail => some (b :: tail)
    | none => none

/-- Model of JavaScript `decodeURIComponent`: `none` models a thrown
`URIError` (bad escape or invalid UTF-8 result). -/
def percentDecode (s : String) : Option String :=
  match percentDecodeBytes (utf8Encode s.data) with
  | some bytes =>
    match utf8Decode bytes with
    | some chars => some (String.mk chars)
    | none => none
  | none => none

/-- The character list after the last `/`, i.e. `pathname.split('/').pop()`. -/
def lastSegment (l : List Char) : List Char :=
  (l.reverse.takeWhile (fun c => ¬ c == '/')).reverse

/-- `getFileNameFromUrl` from `src/utils/fileUtils.ts`: last path segment of
the parsed URL, percent-decoded; any failure (unparsable URL, empty segment,
decode error) degrades to `"file"`. -/
def getFileNameFromUrl (url : String) : String :=
  match jsURL url with
  | none => "file"
  | some u =>
    let seg := lastSegment u.pathname.data
    let fileName := if seg = [] then "file" else String.mk seg
    match percentDecode fileName with
    | some d => d
    | none => "file"

/-! ## Content fetcher (`downloadFileFromUrl`, `src/utils/fileUtils.ts`) -/

/-- An HTTP response as observed by the repository: status, the raw
`content-length` header when present, the realized body size and the body
content type (`""` models an absent/empty type). -/
structure HttpResponse where
  status : Nat
  statusText : String
  contentLength : Option String
  bodySize : Nat
  bodyType : String
deriving DecidableEq, Repr

/-- `response.ok` of the Fetch API: status in 200..299. -/
def respOk (r : HttpResponse) : Bool := 200 ≤ r.status && r.status ≤ 299

/-- A `Blob`: realized size in bytes and content type. -/
structure Blob where
  size : Nat
  type : String
deriving DecidableEq, Repr

/-- Outcome of one `fetch(...)` call: a response, or a transport-level
exception with its message. -/
inductive FetchOutcome where
  | resp (r : HttpResponse)
  | netErr (msg : String)
deriving DecidableEq, Repr

/-- Observable fetcher events: an HTTP GET request (with its credentials
mode) or a read of a response body. -/
inductive Req where
  | get (url : String) (credentials : String)
  | readBody
deriving DecidableEq, Repr

/-- `Req.get` events only (body reads filtered out). -/
def isGetReq : Req → Bool
  | .get _ _ => true
  | .readBody => false

/-- The distinct throw sites of `downloadFileFromUrl`. -/
inductive DlError where
  /-- transport-level failure of the direct GET (the `corsError` catch). -/
  | network (msg : String)
  /-- non-success HTTP status of the adopted response. -/
  | http (status : Nat)
  /-- declared or realized size above the 20 MiB ceiling. -/
  | tooLarge
  /-- zero-byte body. -/
  | empty
deriving DecidableEq, Repr

/-- The fetcher's environment: the page origin and the outcomes the network
would give to the proxy GET and to the direct GET. -/
structure FetchWorld where
  origin : String
  proxy : FetchOutcome
  direct : FetchOutcome
deriving DecidableEq, Repr

/-- The GET issued to the relay: `origin + "/api/proxy?url=" +
encodeURIComponent(url)` with credentials omitted. -/
def proxyRequest (origin url : String) : Req :=
  .get (origin ++ "/api/proxy?url=" ++ encodeURIComponent url) "omit"

/-- Does the declared `content-length` header reject the response?  Mirrors
`if (contentLength) { const fileSize = parseInt(contentLength, 10); if
(fileSize > maxSize) throw ... }`: an absent or empty header is skipped, and
an unparsable header gives `NaN`, whose comparison is false. -/
def headerTooLarge (r : HttpResponse) : Bool :=
  match r.contentLength with
  | some cl =>
    if cl = "" then false
    else
      match parseIntJS cl with
      | some n => decide (n > (maxFileSize : Int))
      | none => false
  | none => false

/-- Checks applied to the adopted response (lines 102-136 of
`fileUtils.ts`): non-success status fails (after a diagnostic body read);
an oversize declared length fails before any body read; then the body is
read and its realized size must be within the ceiling and non-zero. -/
def checkResponse (r : HttpResponse) : Except DlError Blob × List Req :=
  if ¬ respOk r then (.error (.http r.status), [.readBody])
  else if headerTooLarge r then (.error .tooLarge, [])
  else if r.bodySize > maxFileSize then (.error .tooLarge, [.readBody])
  else if r.bodySize = 0 then (.error .empty, [.readBody])
  else (.ok { size := r.bodySize, type := r.bodyType }, [.readBody])

/-- Response selection of `downloadFileFromUrl` (lines 29-100): with
`useProxy`, the proxy GET is issued first and its response is adopted only
when `ok` (a non-ok proxy response is only logged, with a diagnostic body
read; a proxy exception is caught).  If no response was adopted, a single
direct GET with credentials omitted is issued; a transport-level exception
there is rethrown as the network error with no further fallback. -/
def selectResponse (url : String) (useProxy : Bool) (w : FetchWorld) :
    Except DlError HttpResponse × List Req :=
  if useProxy then
    match w.proxy with
    | .resp r =>
      if respOk r then (.ok r, [proxyRequest w.origin url])
      else
        match w.direct with
        | .netErr m => (.error (.network m), [proxyRequest w.origin url, .readBody, .get url "omit"])
        | .resp rd => (.ok rd, [proxyRequest w.origin url, .readBody, .get url "omit"])
    | .netErr _ =>
      match w.direct with
      | .netErr m => (.error (.network m), [proxyRequest w.origin url, .get url "omit"])
      | .resp rd => (.ok rd, [proxyRequest w.origin url, .get url "omit"])
  else
    match w.direct with
    | .netErr m => (.error (.network m), [.get url "omit"])
    | .resp rd => (.ok rd, [.get url "omit"])

/-- `downloadFileFromUrl(url, useProxy)` with the network behaviour supplied
by `w`: response selection followed by the status/size/emptiness checks of
the adopted response.  The trailing catch of the source only rewraps the
message and is the identity on this model. -/
def downloadFileFromUrl (url : String) (useProxy : Bool) (w : FetchWorld) :
    Except DlError Blob × List Req :=
  match selectResponse url useProxy w with
  | (.error e, tr) => (.error e, tr)
  | (.ok r, tr) =>
    let c := checkResponse r
    (c.1, tr ++ c.2)

/-! ## Relay endpoint (`api/proxy.js`) -/

/-- A request to the relay: method and the `url` query parameter (`none`
models a missing or non-string parameter). -/
structure RelayReq where
  method : String
  url : Option String
deriving DecidableEq, Repr

/-- A relay response body: nothing, a JSON object with an `error` field and
an optional `details` field, or raw bytes. -/
inductive RelayBody where
  | empty
  | json (error : String) (details : Option String)
  | bin (len : Nat)
deriving DecidableEq, Repr

/-- A relay response: status, the headers set on it, and its body. -/
structure RelayRes where
  status : Nat
  headers : List (String × String)
  body : RelayBody
deriving DecidableEq, Repr

/-- The relay's environment: outcome of the GET to the target URL. -/
structure RelayWorld where
  targetFetch : FetchOutcome
deriving DecidableEq, Repr

/-- Does the response carry the permissive cross-origin header? -/
def hasCORS (r : RelayRes) : Bool :=
  r.headers.any (fun h => h.1 == "Access-Control-Allow-Origin" && h.2 == "*")

/-- The relay handler of `api/proxy.js`.  OPTIONS gets a 200 preflight with
the three CORS headers; non-GET gets 405; a missing/unparsable/forbidden
`url` parameter gets 400; a transport failure gets 500 with a JSON body
carrying `error` and `details`; a non-ok target status is relayed; a body
above the ceiling gets 413; success gets 200 with content and CORS headers. -/
def handler (req : RelayReq) (w : RelayWorld) : RelayRes :=
  if req.method = "OPTIONS" then
    { status := 200
      headers := [("Access-Control-Allow-Origin", "*"),
                  ("Access-Control-Allow-Methods", "GET, OPTIONS"),
                  ("Access-Control-Allow-Headers", "Content-Type")]
      body := .empty }
  else if ¬ req.method = "GET" then
    { status := 405, headers := [], body := .json "Method not allowed" none }
  else
    match req.url with
    | none => { status := 400, headers := [], body := .json "Missing or invalid url parameter" none }
    | some u =>
      match jsURL u with
      | none => { status := 400, headers := [], body := .json "Invalid URL format" none }
      | some uo =>
        if ¬ (uo.protocol = "http:" ∨ uo.protocol = "https:") then
          { status := 400, headers := [], body := .json "Invalid URL protocol" none }
        else
          match w.targetFetch with
          | .netErr m =>
            { status := 500, headers := [], body := .json m (some m) }
          | .resp r =>
            if ¬ respOk r then
              { status := r.status, headers := []
                body := .json ("Failed to fetch file: " ++ toString r.status ++ " " ++ r.statusText) none }
            else if r.bodySize > maxFileSize then
              { status := 413, headers := [], body := .json "File size exceeds 20MB" none }
            else
              { status := 200
                headers := [("Content-Type", if r.bodyType = "" then "application/octet-stream" else r.bodyType),
                            ("Content-Length", toString r.bodySize),
                            ("Cache-Control", "public, max-age=3600"),
                            ("Access-Control-Allow-Origin", "*"),
                            ("Access-Control-Allow-Methods", "GET, OPTIONS")]
                body := .bin r.bodySize }

/-! ## Value normalizer (`handleConvert`, URL extraction) -/

/-- A rich-text segment, optionally carrying `link` and `text` sub-values
(`some ""` models a property holding the empty string). -/
structure Segment where
  link : Option String
  text : Option String
deriving DecidableEq, Repr

/-- An element of a segment array: a segment object, a plain string, or a
null/undefined element. -/
inductive SegItem where
  | seg (sg : Segment)
  | strItem (s : String)
  | nullItem
deriving DecidableEq, Repr

/-- A source cell value as the driver can observe it: null/undefined, a
plain string, a segment array, a single segment object, or a non-object
primitive of some other type. -/
inductive CellValue where
  | nullv
  | str (s : String)
  | arr (items : List SegItem)
  | obj (sg : Segment)
  | primOther
deriving DecidableEq, Repr

/-- JavaScript `a || b || null` on two optional string properties: an absent
or empty-string value is falsy and falls through. -/
def jsOr (a b : Option String) : Option String :=
  match a with
  | some s => if s = "" then (match b with
      | some t => if t = "" then none else some t
      | none => none)
    else some s
  | none =>
    match b with
    | some t => if t = "" then none else some t
    | none => none

/-- The URL extraction of `handleConvert` (lines 263-298 of the logged
`App.tsx`): a falsy value gives null; a plain string is returned as is; a
non-empty array contributes its first element (object: `link || text ||
null`; string: itself; anything falsy: null); an empty array reaches the
object branch where both properties are absent; a single object uses
`link || text || null`; other primitives give null. -/
def normalizeCell : CellValue → Option String
  | .nullv => none
  | .str s => if s = "" then none else some s
  | .arr items =>
    match items with
    | [] => none
    | first :: _ =>
      match first with
      | .seg sg => jsOr sg.link sg.text
      | .strItem s => some s
      | .nullItem => none
  | .obj sg => jsOr sg.link sg.text
  | .primOther => none

/-! ## Attachment synthesizer and verification (`handleConvert`) -/

/-- The host's attachment record shape (`IOpenAttachment`): token, name,
size, content type and creation timestamp.  `""`/`0` model absent
properties. -/
structure Attachment where
  token : String
  name : String
  size : Nat
  type : String
  timeStamp : Nat
deriving DecidableEq, Repr

/-- A target cell value: `some l` for an array of attachment records,
`none` for null/undefined/non-array. -/
abbrev TargetVal := Option (List Attachment)

/-- How many attachments the cell currently holds (`0` for null/non-array),
as computed at lines 468-470 of the logged `App.tsx`. -/
def existingCount (cur : TargetVal) : Nat :=
  match cur with
  | some l => l.length
  | none => 0

/-- Normalization of one pre-existing attachment before an append (lines
420-432): an entry with a truthy token keeps its token and has missing
name/size/type/timeStamp filled with defaults; any other entry is passed
through unchanged. -/
def normalizeAtt (now : Nat) (a : Attachment) : Attachment :=
  if a.token = "" then a
  else
    { token := a.token
      name := if a.name = "" then "file" else a.name
      size := a.size
      type := if a.type = "" then "application/octet-stream" else a.type
      timeStamp := if a.timeStamp = 0 then now else a.timeStamp }

/-- The attachment set written back (lines 411-435): under overwrite, or
when the cell is empty/absent, exactly the new record; otherwise the
normalized existing entries in order followed by the new record. -/
def buildAttachmentSet (overwrite : Bool) (cur : TargetVal) (item : Attachment)
    (now : Nat) : List Attachment :=
  if overwrite then [item]
  else
    match cur with
    | none => [item]
    | some l => if l.length = 0 then [item] else l.map (normalizeAtt now) ++ [item]

/-- Per-record outcome. -/
inductive Outcome where
  | success
  | failed
  | skipped
deriving DecidableEq, Repr

/-- The post-write verification of `handleConvert` (lines 455-499): on an
array read-back, a token match is success; otherwise a non-empty array
succeeds exactly when its length reaches the expected count (1 under
overwrite, previous count + 1 under append) and fails below it; an empty
array fails in either mode; a null/non-array read-back fails under
overwrite and is treated as success under append. -/
def classifyVerify (overwrite : Bool) (existingCnt : Nat) (tok : String)
    (verify : TargetVal) : Outcome :=
  match verify with
  | some l =>
    if l.any (fun a => a.token == tok) then .success
    else if 0 < l.length then
      if l.length ≥ (if overwrite then 1 else existingCnt + 1) then .success
      else .failed
    else .failed
  | none => if overwrite then .failed else .success

/-- Modelled from the spec: the verification decision table exactly as the
specification words it — token present among the resulting attachments →
success; else count at least the expected count → success; else overwrite
mode with an empty or null read-back → failed; else (append mode) →
success.  Used only to compare the specified table with `classifyVerify`. -/
def specVerifyClaim (overwrite : Bool) (existingCnt : Nat) (tok : String)
    (verify : TargetVal) : Outcome :=
  let atts := verify.getD []
  if atts.any (fun a => a.token == tok) then .success
  else if atts.length ≥ (if overwrite then 1 else existingCnt + 1) then .success
  else if overwrite ∧ atts.length = 0 then .failed
  else .success

/-! ## Record conversion driver (`handleConvert`, per-record body) -/

/-- Claim-relevant effects of one record's processing. -/
inductive Effect where
  | download (useProxy : Bool)
  | upload
  | write
  | verifyRead
deriving DecidableEq, Repr

/-- One record's environment: its id and the results the host and network
would give to each call the driver can make.  An `Except.error` models the
call throwing; `setCell` observes the attachment list it is asked to
write. -/
structure RecordWorld where
  recordId : String
  readSrc : Except String CellValue
  readTarget : Except String TargetVal
  downloadProxy : Except String Blob
  downloadDirect : Except String Blob
  getField : Except String Unit
  upload : Except String (List String)
  setCell : List Attachment → Except String Unit
  readVerify : Except String TargetVal
  now : Nat

/-- The download step with its message-driven fallback (lines 322-365): a
proxy-mode failure mentioning `500`, `HTTP错误` or `服务器错误` is final; one
mentioning `CORS` or `代理` triggers one direct retry; anything else is
final. -/
def downloadPhase (w : RecordWorld) : Except String Blob × List Effect :=
  match w.downloadProxy with
  | .ok b => (.ok b, [.download true])
  | .error e =>
    if includesSub e "500" || includesSub e "HTTP错误" || includesSub e "服务器错误" then
      (.error e, [.download true])
    else if includesSub e "CORS" || includesSub e "代理" then
      match w.downloadDirect with
      | .ok b => (.ok b, [.download true, .download false])
      | .error e2 => (.error e2, [.download true, .download false])
    else (.error e, [.download true])

/-- The per-record body of `handleConvert` (lines 244-522): empty id →
skipped; source read, normalization, trim and skip on no URL; validation
failure → failed; existing attachments without overwrite → skipped;
download (with fallback), field fetch, upload, token check, attachment-set
construction, write and verification read, each failure caught at its
source catch and converted to failed; a completed write is classified by
`classifyVerify`.  Returns the outcome and the effect trace. -/
def processRecord (overwrite : Bool) (w : RecordWorld) : Outcome × List Effect :=
  if w.recordId = "" then (.skipped, [])
  else
    match w.readSrc with
    | .error _ => (.failed, [])
    | .ok cellVal =>
      match normalizeCell cellVal with
      | none => (.skipped, [])
      | some url =>
        if jsTrim url = "" then (.skipped, [])
        else
          let turl := jsTrim url
          if ¬ isValidUrl turl then (.failed, [])
          else
            match w.readTarget with
            | .error _ => (.failed, [])
            | .ok cur =>
              if ¬ overwrite ∧ 0 < existingCount cur then (.skipped, [])
              else
                match downloadPhase w with
                | (.error _, acts) => (.failed, acts)
                | (.ok blob, acts) =>
                  let fileName :=
                    if getFileNameFromUrl turl = "" then "file" else getFileNameFromUrl turl
                  match w.getField with
                  | .error _ => (.failed, acts)
                  | .ok _ =>
                    match w.upload with
                    | .error _ => (.failed, acts ++ [.upload])
                    | .ok tokens =>
                      match tokens with
                      | [] => (.failed, acts ++ [.upload])
                      | tok :: _ =>
                        let item : Attachment :=
                          { token := tok, name := fileName, size := blob.size
                            type := if blob.type = "" then "application/octet-stream" else blob.type
                            timeStamp := w.now }
                        match w.setCell (buildAttachmentSet overwrite cur item w.now) with
                        | .error _ => (.failed, acts ++ [.upload, .write])
                        | .ok _ =>
                          match w.readVerify with
                          | .error _ => (.failed, acts ++ [.upload, .write, .verifyRead])
                          | .ok ver =>
                            (classifyVerify overwrite (existingCount cur) tok ver,
                             acts ++ [.upload, .write, .verifyRead])

/-! ## Batch orchestrator (`handleConvert`, loop and counters) -/

/-- Run counters. -/
structure Counts where
  success : Nat
  failed : Nat
  skipped : Nat
deriving DecidableEq, Repr

/-- The counter contribution of one outcome. -/
def countOf : Outcome → Counts
  | .success => ⟨1, 0, 0⟩
  | .failed => ⟨0, 1, 0⟩
  | .skipped => ⟨0, 0, 1⟩

/-- Pointwise counter addition. -/
def addCounts (a b : Counts) : Counts :=
  ⟨a.success + b.success, a.failed + b.failed, a.skipped + b.skipped⟩

/-- The batch loop: one record at a time, in order, each contributing
exactly one outcome to the counters. -/
def runBatch (overwrite : Bool) : List RecordWorld → Counts
  | [] => ⟨0, 0, 0⟩
  | w :: rest => addCounts (countOf (processRecord overwrite w).1) (runBatch overwrite rest)

example : isValidUrl "http://a.b/c" = true := by decide
example : isValidUrl "https://a.b/c?q=1" = true := by decide
example : isValidUrl "ftp://x" = false := by decide
example : isValidUrl "not a url" = false := by decide
example : isValidUrl "" = false := by decide
example : parseIntJS "abc" = none := by decide
example : parseIntJS " 123" = some 123 := by decide
example : parseIntJS "20971521" = some 20971521 := by decide
example : getFileNameFromUrl "http://a.b/c/img%20x.png" = "img x.png" := by decide
example : encodeURIComponent "http://a.b/c" = "http%3A%2F%2Fa.b%2Fc" := by decide
example : jsTrim "  http://a.b/c " = "http://a.b/c" := by decide
example : includesSub "xHTTPxx" "HTTP" = true := by decide
example : includesSub "xHTPxx" "HTTP" = false := by decide

/-! ## Theorems -/

/-- `normalizeAtt` never changes the token. -/
theorem normalizeAtt_token (now : Nat) (a : Attachment) :
    (normalizeAtt now a).token = a.token := by
  unfold normalizeAtt
  split <;> rfl

/-- Claim C9: the URL validator returns true exactly when the string parses
as an absolute URL whose scheme is http or https, and false otherwise; in
particular it rejects `ftp://x`, `not a url` and the empty string, and
accepts `http://a.b/c` and `https://a.b/c?q=1`. -/
theorem claim_c9_url_validator :
    (∀ s : String, isValidUrl s = true ↔
      ∃ u, jsURL s = some u ∧ (u.protocol = "http:" ∨ u.protocol = "https:")) ∧
    isValidUrl "ftp://x" = false ∧
    isValidUrl "not a url" = false ∧
    isValidUrl "" = false ∧
    isValidUrl "http://a.b/c" = true ∧
    isValidUrl "https://a.b/c?q=1" = true := by
  refine ⟨?_, by decide, by decide, by decide, by decide, by decide⟩
  intro s
  unfold isValidUrl
  by_cases hs : s = ""
  · subst hs
    simp only [if_pos rfl]
    constructor
    · intro h; cases h
    · rintro ⟨u, hu, _⟩
      rw [show jsURL "" = none from rfl] at hu
      cases hu
  · rw [if_neg hs]
    cases h : jsURL s with
    | none =>
      simp [h]
    | some u =>
      simp [h]

/-- Claim C7: URL normalization is total (shapes it does not recognize give
null), a plain non-empty string is returned as is, and for a segment
carrying both a link sub-value and a text sub-value the link sub-value is
returned, both as a single object and as the first element of a segment
array.  (A JavaScript empty-string property is falsy, so "carrying a link
sub-value" is a present, non-empty link string.) -/
theorem claim_c7_normalize (sg : Segment) (l : String) (rest : List SegItem)
    (s : String) :
    normalizeCell .nullv = none ∧
    normalizeCell .primOther = none ∧
    normalizeCell (.arr []) = none ∧
    (¬ s = "" → normalizeCell (.str s) = some s) ∧
    (sg.link = some l → ¬ l = "" →
      normalizeCell (.obj sg) = some l ∧
      normalizeCell (.arr (.seg sg :: rest)) = some l) := by
  refine ⟨rfl, rfl, rfl, ?_, ?_⟩
  · intro h
    simp [normalizeCell, h]
  · intro hl hne
    constructor
    · simp [normalizeCell, jsOr, hl, hne]
    · simp [normalizeCell, jsOr, hl, hne]

/-- Witness for C7 at concrete inputs. -/
theorem claim_c7_normalize_witness :
    normalizeCell (.str "http://a.b/c") = some "http://a.b/c" ∧
    normalizeCell (.obj ⟨some "http://x", some "text y"⟩) = some "http://x" ∧
    normalizeCell (.arr [.seg ⟨some "http://x", some "text y"⟩]) = some "http://x" := by
  refine ⟨(claim_c7_normalize ⟨some "http://x", some "text y"⟩ "http://x" [] "http://a.b/c").2.2.2.1 (by decide), ?_, ?_⟩
  · exact ((claim_c7_normalize ⟨some "http://x", some "text y"⟩ "http://x" [] "http://a.b/c").2.2.2.2 rfl (by decide)).1
  · exact ((claim_c7_normalize ⟨some "http://x", some "text y"⟩ "http://x" [] "http://a.b/c").2.2.2.2 rfl (by decide)).2

/-- Claim C6: under overwrite, or for an empty or absent existing set, the
written attachment set is exactly the new record; otherwise every existing
entry is kept in order with its token unchanged and the new record is
appended at the end, so the length grows by one. -/
theorem claim_c6_attachment_set (ov : Bool) (cur : TargetVal) (item : Attachment)
    (now : Nat) :
    ((ov = true ∨ cur = none ∨ cur = some []) →
      buildAttachmentSet ov cur item now = [item]) ∧
    (∀ l, ov = false → cur = some l → ¬ l = [] →
      buildAttachmentSet ov cur item now = l.map (normalizeAtt now) ++ [item] ∧
      (buildAttachmentSet ov cur item now).length = l.length + 1 ∧
      (buildAttachmentSet ov cur item now).map Attachment.token
        = l.map Attachment.token ++ [item.token]) := by
  constructor
  · intro h
    unfold buildAttachmentSet
    rcases h with h | h | h
    · rw [h]; simp
    · rw [h]; cases ov <;> simp
    · rw [h]; cases ov <;> simp
  · intro l hov hcur hne
    subst hov
    subst hcur
    have hlen : ¬ l.length = 0 := by simpa using hne
    have hb : buildAttachmentSet false (some l) item now
        = l.map (normalizeAtt now) ++ [item] := by
      unfold buildAttachmentSet
      simp [hlen]
    refine ⟨hb, by rw [hb]; simp, ?_⟩
    rw [hb, List.map_append, List.map_map]
    have hmap : l.map (Attachment.token ∘ normalizeAtt now) = l.map Attachment.token :=
      List.map_congr_left (fun a _ => normalizeAtt_token now a)
    rw [hmap]
    rfl

/-- Witness for C6 at concrete inputs. -/
theorem claim_c6_attachment_set_witness :
    buildAttachmentSet true (some [⟨"tokA", "a", 1, "t", 1⟩]) ⟨"tokN", "n", 2, "u", 2⟩ 7
      = [⟨"tokN", "n", 2, "u", 2⟩] ∧
    (buildAttachmentSet false (some [⟨"tokA", "a", 1, "t", 1⟩]) ⟨"tokN", "n", 2, "u", 2⟩ 7).map Attachment.token
      = ["tokA", "tokN"] := by
  constructor
  · exact (claim_c6_attachment_set true (some [⟨"tokA", "a", 1, "t", 1⟩]) ⟨"tokN", "n", 2, "u", 2⟩ 7).1 (Or.inl rfl)
  · exact ((claim_c6_attachment_set false (some [⟨"tokA", "a", 1, "t", 1⟩]) ⟨"tokN", "n", 2, "u", 2⟩ 7).2
      [⟨"tokA", "a", 1, "t", 1⟩] rfl rfl (by decide)).2.2

/-- Claim C1 counterexample: for a completed write in append mode with no
previous attachments, an empty-array read-back is classified failed by the
code, while the claimed decision table classifies it success (its
overwrite-and-empty rule does not fire and its catch-all append rule
does). -/
theorem claim_c1_counterexample :
    classifyVerify false 0 "T1" (some []) = .failed ∧
    specVerifyClaim false 0 "T1" (some []) = .success := by
  constructor <;> rfl

/-- Claim C1 amended: the post-write classification is — token match on an
array read-back → success; array read-back whose count reaches the expected
count (1 in overwrite mode, previous count + 1 in append mode) → success;
any other array read-back (count below expected, including the empty array,
in either mode) → failed; null/non-array read-back → failed in overwrite
mode and success in append mode. -/
theorem claim_c1_amended (ov : Bool) (n : Nat) (tok : String) (verify : TargetVal) :
    (∀ l, verify = some l → l.any (fun a => a.token == tok) = true →
      classifyVerify ov n tok verify = .success) ∧
    (∀ l, verify = some l → l.length ≥ (if ov then 1 else n + 1) →
      classifyVerify ov n tok verify = .success) ∧
    (∀ l, verify = some l → l.any (fun a => a.token == tok) = false →
      l.length < (if ov then 1 else n + 1) →
      classifyVerify ov n tok verify = .failed) ∧
    (verify = none → classifyVerify ov n tok verify = (if ov then .failed else .success)) := by
  refine ⟨?_, ?_, ?_, ?_⟩
  · rintro l rfl h
    simp [classifyVerify, h]
  · rintro l rfl h
    by_cases ha : l.any (fun a => a.token == tok) = true
    · simp [classifyVerify, ha]
    · have hexp : 1 ≤ (if ov then 1 else n + 1) := by
        cases ov <;> simp
      have hpos : 0 < l.length := lt_of_lt_of_le (by omega) h
      simp [classifyVerify, ha, hpos, h]
  · rintro l rfl ha hlt
    by_cases h0 : 0 < l.length
    · simp [classifyVerify, ha, h0, Nat.not_le.mpr hlt]
    · simp [classifyVerify, ha, h0]
  · rintro rfl
    rfl

/-- Witness for the amended C1 at concrete inputs: a token match succeeds,
a short read-back fails, a null read-back in append mode succeeds. -/
theorem claim_c1_amended_witness :
    classifyVerify true 0 "T1" (some [⟨"T1", "f", 1, "t", 1⟩]) = .success ∧
    classifyVerify false 1 "T1" (some [⟨"x", "f", 1, "t", 1⟩]) = .failed ∧
    classifyVerify false 0 "T1" none = .success := by
  refine ⟨?_, ?_, ?_⟩
  · exact (claim_c1_amended true 0 "T1" (some [⟨"T1", "f", 1, "t", 1⟩])).1
      [⟨"T1", "f", 1, "t", 1⟩] rfl (by decide)
  · exact (claim_c1_amended false 1 "T1" (some [⟨"x", "f", 1, "t", 1⟩])).2.2.1
      [⟨"x", "f", 1, "t", 1⟩] rfl (by decide) (by decide)
  · exact (claim_c1_amended false 0 "T1" none).2.2.2 rfl

/-- Claim C10: a present but non-numeric `content-length` header neither
throws nor rejects the download early — the header check is a no-op and the
response is treated exactly as if the header were absent, so the 20 MiB
ceiling and the non-emptiness requirement are still enforced on the
realized body size. -/
theorem claim_c10_nan_header (r : HttpResponse) (cl : String) :
    r.contentLength = some cl → parseIntJS cl = none →
    headerTooLarge r = false ∧
    checkResponse r = checkResponse { r with contentLength := none } := by
  intro hcl hp
  have h1 : headerTooLarge r = false := by
    unfold headerTooLarge
    rw [hcl]
    by_cases hc : cl = ""
    · simp [hc]
    · simp [hc, hp]
  have h2 : headerTooLarge { r with contentLength := none } = false := rfl
  refine ⟨h1, ?_⟩
  unfold checkResponse
  rw [h1, h2]
  rfl

/-- Witness for C10: a `content-length` of `"abc"` is ignored and an
otherwise healthy body passes the checks. -/
theorem claim_c10_nan_header_witness :
    headerTooLarge ⟨200, "OK", some "abc", 5, "image/png"⟩ = false ∧
    checkResponse ⟨200, "OK", some "abc", 5, "image/png"⟩
      = checkResponse ⟨200, "OK", none, 5, "image/png"⟩ :=
  claim_c10_nan_header ⟨200, "OK", some "abc", 5, "image/png"⟩ "abc" rfl rfl

/-- Claim C8 counterexample: the 400 response for a missing `url` parameter
carries no permissive cross-origin header. -/
theorem claim_c8_counterexample :
    (handler ⟨"GET", none⟩ ⟨.netErr "down"⟩).status = 400 ∧
    hasCORS (handler ⟨"GET", none⟩ ⟨.netErr "down"⟩) = false := by
  constructor <;> rfl

/-- Claim C8 amended: the relay sets the permissive cross-origin header
exactly on its 200 responses — the OPTIONS preflight and the successful
relay; the 400, 405, 413, relayed-error-status and 500 responses carry no
cross-origin header. -/
theorem claim_c8_amended (req : RelayReq) (w : RelayWorld) :
    hasCORS (handler req w) = true ↔ (handler req w).status = 200 := by
  unfold handler hasCORS
  split
  · simp
  · split
    · simp
    · split
      · simp
      · split
        · simp
        · split
          · simp
          · split
            · simp
            · split
              · rename_i h
                simp [respOk] at h
                simp
                omega
              · split
                · simp
                · simp

/-- A blob returned by `checkResponse` is non-empty and within the
ceiling. -/
theorem checkResponse_fst_ok (r : HttpResponse) (b : Blob) :
    (checkResponse r).1 = .ok b → 0 < b.size ∧ b.size ≤ maxFileSize := by
  intro h
  unfold checkResponse at h
  split at h
  · simp at h
  · split at h
    · simp at h
    · split at h
      · simp at h
      · split at h
        · simp at h
        · rename_i hbig hzero
          simp at h
          subst h
          constructor
          · show 0 < r.bodySize
            omega
          · show r.bodySize ≤ maxFileSize
            omega

/-- The request trace of `checkResponse` contains no GET. -/
theorem checkResponse_trace_no_get (r : HttpResponse) :
    ((checkResponse r).2).filter isGetReq = [] := by
  unfold checkResponse
  split
  · rfl
  · split
    · rfl
    · split
      · rfl
      · split <;> rfl

/-- Claim C4: every payload returned by the fetcher is non-empty and at most
20 MiB; a declared oversize `content-length` on an adopted success response
rejects with no body read; an oversize realized body rejects even without a
header; a zero-byte body is the empty-payload error, never a success. -/
theorem claim_c4_size_bounds :
    (∀ url p w b t, downloadFileFromUrl url p w = (Except.ok b, t) →
      0 < b.size ∧ b.size ≤ maxFileSize) ∧
    (∀ r cl n, respOk r = true → r.contentLength = some cl →
      parseIntJS cl = some n → n > (maxFileSize : Int) →
      checkResponse r = (Except.error DlError.tooLarge, [])) ∧
    (∀ r, respOk r = true → headerTooLarge r = false → r.bodySize > maxFileSize →
      (checkResponse r).1 = Except.error DlError.tooLarge) ∧
    (∀ r, respOk r = true → headerTooLarge r = false → r.bodySize = 0 →
      (checkResponse r).1 = Except.error DlError.empty) := by
  refine ⟨?_, ?_, ?_, ?_⟩
  · intro url p w b t h
    unfold downloadFileFromUrl at h
    cases hsel : selectResponse url p w with
    | mk fst snd =>
      rw [hsel] at h
      cases fst with
      | error e => simp at h
      | ok r =>
        simp at h
        exact checkResponse_fst_ok r b h.1
  · intro r cl n hok hcl hp hgt
    have hclne : ¬ cl = "" := by
      intro e
      subst e
      rw [show parseIntJS "" = none from rfl] at hp
      cases hp
    have hH : headerTooLarge r = true := by
      unfold headerTooLarge
      rw [hcl]
      simp [hclne, hp, hgt]
    simp [checkResponse, hok, hH]
  · intro r hok hH hbig
    simp [checkResponse, hok, hH, hbig]
  · intro r hok hH hz
    simp [checkResponse, hok, hH, hz, maxFileSize]

/-- Witness for C4: a healthy 5-byte response passes with its size inside
the bounds. -/
theorem claim_c4_size_bounds_witness :
    0 < (Blob.mk 5 "image/png").size ∧ (Blob.mk 5 "image/png").size ≤ maxFileSize :=
  claim_c4_size_bounds.1 "http://a.b/c" true
    ⟨"", .resp ⟨200, "OK", none, 5, "image/png"⟩, .netErr "x"⟩ ⟨5, "image/png"⟩
    ((downloadFileFromUrl "http://a.b/c" true
      ⟨"", .resp ⟨200, "OK", none, 5, "image/png"⟩, .netErr "x"⟩).2) rfl

/-- Claim C3: with the relay preferred, the first GET goes to the
same-origin relay endpoint with the target URL percent-encoded; an ok relay
response is adopted and no direct GET happens; otherwise exactly one direct
GET with credentials omitted follows; and a transport exception of the
direct GET surfaces as the network-tagged fetch error with no further
request. -/
theorem claim_c3_fetch_strategy (url : String) (w : FetchWorld) :
    (((downloadFileFromUrl url true w).2.filter isGetReq).head?
        = some (proxyRequest w.origin url)) ∧
    (∀ r, w.proxy = .resp r → respOk r = true →
      downloadFileFromUrl url true w
          = ((checkResponse r).1, proxyRequest w.origin url :: (checkResponse r).2) ∧
      (downloadFileFromUrl url true w).2.filter isGetReq = [proxyRequest w.origin url]) ∧
    (∀ r, w.proxy = .resp r → respOk r = false →
      (downloadFileFromUrl url true w).2.filter isGetReq
          = [proxyRequest w.origin url, .get url "omit"]) ∧
    (∀ m, w.proxy = .netErr m →
      (downloadFileFromUrl url true w).2.filter isGetReq
          = [proxyRequest w.origin url, .get url "omit"]) ∧
    (∀ m, w.direct = .netErr m → ¬ (∃ r, w.proxy = .resp r ∧ respOk r = true) →
      (downloadFileFromUrl url true w).1 = .error (.network m)) := by
  refine ⟨?_, ?_, ?_, ?_, ?_⟩
  · rcases hp : w.proxy with r | m
    · by_cases hok : respOk r = true
      · simp [downloadFileFromUrl, selectResponse, hp, hok, List.filter_append,
              proxyRequest, isGetReq, checkResponse_trace_no_get]
      · rcases hd : w.direct with rd | m2 <;>
          simp [downloadFileFromUrl, selectResponse, hp, hok, hd, List.filter_append,
                proxyRequest, isGetReq, checkResponse_trace_no_get]
    · rcases hd : w.direct with rd | m2 <;>
        simp [downloadFileFromUrl, selectResponse, hp, hd, List.filter_append,
              proxyRequest, isGetReq, checkResponse_trace_no_get]
  · intro r hp hok
    constructor
    · simp [downloadFileFromUrl, selectResponse, hp, hok]
    · simp [downloadFileFromUrl, selectResponse, hp, hok, List.filter_append,
            proxyRequest, isGetReq, checkResponse_trace_no_get]
  · intro r hp hok
    rcases hd : w.direct with rd | m2 <;>
      simp [downloadFileFromUrl, selectResponse, hp, hok, hd, List.filter_append,
            proxyRequest, isGetReq, checkResponse_trace_no_get]
  · intro m hp
    rcases hd : w.direct with rd | m2 <;>
      simp [downloadFileFromUrl, selectResponse, hp, hd, List.filter_append,
            proxyRequest, isGetReq, checkResponse_trace_no_get]
  · intro m hd hnot
    rcases hp : w.proxy with r | m2
    · by_cases hok : respOk r = true
      · exact absurd ⟨r, hp, hok⟩ hnot
      · simp [downloadFileFromUrl, selectResponse, hp, hok, hd]
    · simp [downloadFileFromUrl, selectResponse, hp, hd]

/-- Witness for C3: a failing relay response followed by a direct transport
failure surfaces the network error after exactly the relay GET and one
direct GET. -/
theorem claim_c3_fetch_strategy_witness :
    (downloadFileFromUrl "http://a.b/c" true
        ⟨"https://o.example", .resp ⟨500, "ISE", none, 0, ""⟩, .netErr "refused"⟩).2.filter isGetReq
      = [proxyRequest "https://o.example" "http://a.b/c", .get "http://a.b/c" "omit"] ∧
    (downloadFileFromUrl "http://a.b/c" true
        ⟨"https://o.example", .resp ⟨500, "ISE", none, 0, ""⟩, .netErr "refused"⟩).1
      = .error (.network "refused") := by
  constructor
  · exact (claim_c3_fetch_strategy "http://a.b/c"
      ⟨"https://o.example", .resp ⟨500, "ISE", none, 0, ""⟩, .netErr "refused"⟩).2.2.1
      ⟨500, "ISE", none, 0, ""⟩ rfl (by decide)
  · exact (claim_c3_fetch_strategy "http://a.b/c"
      ⟨"https://o.example", .resp ⟨500, "ISE", none, 0, ""⟩, .netErr "refused"⟩).2.2.2.2
      "refused" rfl (by rintro ⟨r, hr, hok⟩; cases hr; exact absurd hok (by decide))

/-- Every record contributes exactly one outcome: the counters of a batch
sum to the number of records, whatever each record's host calls do. -/
theorem runBatch_length (ov : Bool) :
    ∀ ws : List RecordWorld,
      (runBatch ov ws).success + (runBatch ov ws).failed + (runBatch ov ws).skipped
        = ws.length
  | [] => rfl
  | w :: ws => by
    have ih := runBatch_length ov ws
    unfold runBatch
    cases (processRecord ov w).1 <;> simp [countOf, addCounts] <;> omega

/-- Reduction of the per-record driver past its pre-download checks: for a
record with a non-empty id, a successfully read source cell normalizing to
a non-empty valid URL, a successfully read target cell and no skip, the
driver is the download/upload/write/verify tail of `handleConvert`. -/
theorem processRecord_after_checks (ov : Bool) (w : RecordWorld) (v : CellValue)
    (u : String) (cur : TargetVal)
    (hid : ¬ w.recordId = "") (hsrc : w.readSrc = .ok v)
    (hnorm : normalizeCell v = some u) (htrim : ¬ jsTrim u = "")
    (hvalid : isValidUrl (jsTrim u) = true) (htarget : w.readTarget = .ok cur)
    (hskip : ¬ (¬ ov = true ∧ 0 < existingCount cur)) :
    processRecord ov w =
      match downloadPhase w with
      | (.error _, acts) => (.failed, acts)
      | (.ok blob, acts) =>
        let fileName :=
          if getFileNameFromUrl (jsTrim u) = "" then "file" else getFileNameFromUrl (jsTrim u)
        match w.getField with
        | .error _ => (.failed, acts)
        | .ok _ =>
          match w.upload with
          | .error _ => (.failed, acts ++ [.upload])
          | .ok tokens =>
            match tokens with
            | [] => (.failed, acts ++ [.upload])
            | tok :: _ =>
              let item : Attachment :=
                { token := tok, name := fileName, size := blob.size
                  type := if blob.type = "" then "application/octet-stream" else blob.type
                  timeStamp := w.now }
              match w.setCell (buildAttachmentSet ov cur item w.now) with
              | .error _ => (.failed, acts ++ [.upload, .write])
              | .ok _ =>
                match w.readVerify with
                | .error _ => (.failed, acts ++ [.upload, .write, .verifyRead])
                | .ok ver =>
                  (classifyVerify ov (existingCount cur) tok ver,
                   acts ++ [.upload, .write, .verifyRead]) := by
  unfold processRecord
  rw [if_neg hid, hsrc]
  simp only [hnorm]
  rw [if_neg htrim]
  simp only [hvalid, Bool.not_true, if_neg (by simp : ¬ (False : Prop))]
  rw [htarget]
  simp only [if_neg hskip]
  simp

/-- Claim C2 counterexample: a record whose proxy download throws with a
CORS-tagged message is caught, but the record is not counted failed — the
driver retries the direct path (lines 349-359 of the logged `App.tsx`) and
on success the record proceeds and ends success. -/
theorem claim_c2_counterexample :
    (RecordWorld.mk "r1" (Except.ok (.str "http://a.b/c")) (Except.ok none)
      (Except.error "CORS限制：无法下载该文件") (Except.ok ⟨5, "image/png"⟩)
      (Except.ok ()) (Except.ok ["tok1"]) (fun _ => Except.ok ())
      (Except.ok (some [⟨"tok1", "c", 5, "image/png", 1⟩])) 0).downloadProxy
        = Except.error "CORS限制：无法下载该文件" ∧
    (processRecord false (RecordWorld.mk "r1" (Except.ok (.str "http://a.b/c"))
      (Except.ok none) (Except.error "CORS限制：无法下载该文件")
      (Except.ok ⟨5, "image/png"⟩) (Except.ok ()) (Except.ok ["tok1"])
      (fun _ => Except.ok ())
      (Except.ok (some [⟨"tok1", "c", 5, "image/png", 1⟩])) 0)).1 = .success ∧
    ¬ (processRecord false (RecordWorld.mk "r1" (Except.ok (.str "http://a.b/c"))
      (Except.ok none) (Except.error "CORS限制：无法下载该文件")
      (Except.ok ⟨5, "image/png"⟩) (Except.ok ()) (Except.ok ["tok1"])
      (fun _ => Except.ok ())
      (Except.ok (some [⟨"tok1", "c", 5, "image/png", 1⟩])) 0)).1 = .failed := by
  refine ⟨rfl, by decide, by decide⟩

/-- Claim C2 amended: every per-record exception is caught inside that
record's processing — the batch loop always continues with the next record
and the caller only ever sees outcome counters, which sum to the record
count — and the record is counted failed at every throwing site: source
read, target read, download (when the fallback also fails), attachment
field fetch, upload (including a token-less upload result), write, and
verification read.  The one exception: a proxy-download error whose message
mentions CORS or 代理 triggers a single direct retry, and when that retry
succeeds the record continues processing (and can end success). -/
theorem claim_c2_amended (ov : Bool) (w : RecordWorld) (ws : List RecordWorld) :
    runBatch ov (w :: ws) = addCounts (countOf (processRecord ov w).1) (runBatch ov ws) ∧
    ((runBatch ov ws).success + (runBatch ov ws).failed + (runBatch ov ws).skipped
      = ws.length) ∧
    (∀ e, ¬ w.recordId = "" → w.readSrc = .error e → (processRecord ov w).1 = .failed) ∧
    (∀ e v u, ¬ w.recordId = "" → w.readSrc = .ok v → normalizeCell v = some u →
      ¬ jsTrim u = "" → isValidUrl (jsTrim u) = true → w.readTarget = .error e →
      (processRecord ov w).1 = .failed) ∧
    (∀ v u cur e acts, ¬ w.recordId = "" → w.readSrc = .ok v → normalizeCell v = some u →
      ¬ jsTrim u = "" → isValidUrl (jsTrim u) = true → w.readTarget = .ok cur →
      ¬ (¬ ov = true ∧ 0 < existingCount cur) → downloadPhase w = (.error e, acts) →
      (processRecord ov w).1 = .failed) ∧
    (∀ e b, w.downloadProxy = .error e →
      (includesSub e "500" || includesSub e "HTTP错误" || includesSub e "服务器错误") = false →
      (includesSub e "CORS" || includesSub e "代理") = true →
      w.downloadDirect = .ok b →
      downloadPhase w = (.ok b, [.download true, .download false])) ∧
    (∀ v u cur b acts e, ¬ w.recordId = "" → w.readSrc = .ok v → normalizeCell v = some u →
      ¬ jsTrim u = "" → isValidUrl (jsTrim u) = true → w.readTarget = .ok cur →
      ¬ (¬ ov = true ∧ 0 < existingCount cur) → downloadPhase w = (.ok b, acts) →
      w.getField = .error e → (processRecord ov w).1 = .failed) ∧
    (∀ v u cur b acts e, ¬ w.recordId = "" → w.readSrc = .ok v → normalizeCell v = some u →
      ¬ jsTrim u = "" → isValidUrl (jsTrim u) = true → w.readTarget = .ok cur →
      ¬ (¬ ov = true ∧ 0 < existingCount cur) → downloadPhase w = (.ok b, acts) →
      w.getField = .ok () → w.upload = .error e → (processRecord ov w).1 = .failed) ∧
    (∀ v u cur b acts, ¬ w.recordId = "" → w.readSrc = .ok v → normalizeCell v = some u →
      ¬ jsTrim u = "" → isValidUrl (jsTrim u) = true → w.readTarget = .ok cur →
      ¬ (¬ ov = true ∧ 0 < existingCount cur) → downloadPhase w = (.ok b, acts) →
      w.getField = .ok () → w.upload = .ok [] → (processRecord ov w).1 = .failed) ∧
    (∀ v u cur b acts tk toks e, ¬ w.recordId = "" → w.readSrc = .ok v →
      normalizeCell v = some u → ¬ jsTrim u = "" → isValidUrl (jsTrim u) = true →
      w.readTarget = .ok cur → ¬ (¬ ov = true ∧ 0 < existingCount cur) →
      downloadPhase w = (.ok b, acts) → w.getField = .ok () →
      w.upload = .ok (tk :: toks) → (∀ l, w.setCell l = .error e) →
      (processRecord ov w).1 = .failed) ∧
    (∀ v u cur b acts tk toks e, ¬ w.recordId = "" → w.readSrc = .ok v →
      normalizeCell v = some u → ¬ jsTrim u = "" → isValidUrl (jsTrim u) = true →
      w.readTarget = .ok cur → ¬ (¬ ov = true ∧ 0 < existingCount cur) →
      downloadPhase w = (.ok b, acts) → w.getField = .ok () →
      w.upload = .ok (tk :: toks) → (∀ l, w.setCell l = .ok ()) →
      w.readVerify = .error e → (processRecord ov w).1 = .failed) := by
  refine ⟨rfl, runBatch_length ov ws, ?_, ?_, ?_, ?_, ?_, ?_, ?_, ?_, ?_⟩
  · intro e hid h
    unfold processRecord
    rw [if_neg hid, h]
  · intro e v u hid hsrc hnorm htrim hvalid htargetErr
    unfold processRecord
    rw [if_neg hid, hsrc]
    simp only [hnorm]
    rw [if_neg htrim]
    simp only [hvalid, Bool.not_true, if_neg (by simp : ¬ (False : Prop))]
    rw [htargetErr]
    simp
  · intro v u cur e acts hid hsrc hnorm htrim hvalid htarget hskip hdp
    rw [processRecord_after_checks ov w v u cur hid hsrc hnorm htrim hvalid htarget hskip,
        hdp]
  · intro e b hproxy hfinal hretry hdirect
    unfold downloadPhase
    rw [hproxy]
    simp [hfinal, hretry, hdirect]
  · intro v u cur b acts e hid hsrc hnorm htrim hvalid htarget hskip hdp hgf
    rw [processRecord_after_checks ov w v u cur hid hsrc hnorm htrim hvalid htarget hskip,
        hdp]
    simp [hgf]
  · intro v u cur b acts e hid hsrc hnorm htrim hvalid htarget hskip hdp hgf hup
    rw [processRecord_after_checks ov w v u cur hid hsrc hnorm htrim hvalid htarget hskip,
        hdp]
    simp [hgf, hup]
  · intro v u cur b acts hid hsrc hnorm htrim hvalid htarget hskip hdp hgf hup
    rw [processRecord_after_checks ov w v u cur hid hsrc hnorm htrim hvalid htarget hskip,
        hdp]
    simp [hgf, hup]
  · intro v u cur b acts tk toks e hid hsrc hnorm htrim hvalid htarget hskip hdp hgf hup hset
    rw [processRecord_after_checks ov w v u cur hid hsrc hnorm htrim hvalid htarget hskip,
        hdp]
    simp [hgf, hup, hset]
  · intro v u cur b acts tk toks e hid hsrc hnorm htrim hvalid htarget hskip hdp hgf hup hset hver
    rw [processRecord_after_checks ov w v u cur hid hsrc hnorm htrim hvalid htarget hskip,
        hdp]
    simp [hgf, hup, hset, hver]

/-- Witness for the amended C2: a throwing source read, a throwing upload
call, and a throwing verification read each fail their record. -/
theorem claim_c2_amended_witness :
    (processRecord false (RecordWorld.mk "r1" (Except.error "boom") (Except.ok none)
      (Except.error "x") (Except.error "x") (Except.ok ()) (Except.ok [])
      (fun _ => Except.ok ()) (Except.ok none) 0)).1 = .failed ∧
    (processRecord false (RecordWorld.mk "r3" (Except.ok (.str "http://a.b/c"))
      (Except.ok none) (Except.ok ⟨5, "image/png"⟩) (Except.error "x") (Except.ok ())
      (Except.error "upErr") (fun _ => Except.ok ()) (Except.ok none) 0)).1 = .failed ∧
    (processRecord false (RecordWorld.mk "r4" (Except.ok (.str "http://a.b/c"))
      (Except.ok none) (Except.ok ⟨5, "image/png"⟩) (Except.error "x") (Except.ok ())
      (Except.ok ["tok1"]) (fun _ => Except.ok ()) (Except.error "verBoom") 0)).1
        = .failed := by
  refine ⟨?_, ?_, ?_⟩
  · exact (claim_c2_amended false (RecordWorld.mk "r1" (Except.error "boom")
      (Except.ok none) (Except.error "x") (Except.error "x") (Except.ok ()) (Except.ok [])
      (fun _ => Except.ok ()) (Except.ok none) 0) []).2.2.1 "boom" (by decide) rfl
  · exact (claim_c2_amended false (RecordWorld.mk "r3" (Except.ok (.str "http://a.b/c"))
      (Except.ok none) (Except.ok ⟨5, "image/png"⟩) (Except.error "x") (Except.ok ())
      (Except.error "upErr") (fun _ => Except.ok ()) (Except.ok none) 0)
      []).2.2.2.2.2.2.2.1 (.str "http://a.b/c") "http://a.b/c" none ⟨5, "image/png"⟩
      [.download true] "upErr" (by decide) rfl (by decide) (by decide) (by decide) rfl
      (by decide) rfl rfl rfl
  · exact (claim_c2_amended false (RecordWorld.mk "r4" (Except.ok (.str "http://a.b/c"))
      (Except.ok none) (Except.ok ⟨5, "image/png"⟩) (Except.error "x") (Except.ok ())
      (Except.ok ["tok1"]) (fun _ => Except.ok ()) (Except.error "verBoom") 0)
      []).2.2.2.2.2.2.2.2.2.2 (.str "http://a.b/c") "http://a.b/c" none ⟨5, "image/png"⟩
      [.download true] "tok1" [] "verBoom" (by decide) rfl (by decide) (by decide)
      (by decide) rfl (by decide) rfl rfl rfl (fun l => rfl) rfl

/-- Claim C5 counterexample: with overwrite disabled and a target cell
already holding one attachment, a record whose source URL is `ftp://x` is
classified failed (URL validation precedes the existing-attachment check),
not skipped. -/
theorem claim_c5_counterexample :
    (RecordWorld.mk "r1" (Except.ok (.str "ftp://x"))
      (Except.ok (some [⟨"tokA", "a", 1, "t", 1⟩]))
      (Except.error "e") (Except.error "e") (Except.ok ()) (Except.ok [])
      (fun _ => Except.ok ()) (Except.ok none) 0).readTarget
        = Except.ok (some [⟨"tokA", "a", 1, "t", 1⟩]) ∧
    (processRecord false (RecordWorld.mk "r1" (Except.ok (.str "ftp://x"))
      (Except.ok (some [⟨"tokA", "a", 1, "t", 1⟩]))
      (Except.error "e") (Except.error "e") (Except.ok ()) (Except.ok [])
      (fun _ => Except.ok ()) (Except.ok none) 0)).1 = .failed ∧
    ¬ (processRecord false (RecordWorld.mk "r1" (Except.ok (.str "ftp://x"))
      (Except.ok (some [⟨"tokA", "a", 1, "t", 1⟩]))
      (Except.error "e") (Except.error "e") (Except.ok ()) (Except.ok [])
      (fun _ => Except.ok ()) (Except.ok none) 0)).1 = .skipped := by
  refine ⟨rfl, by decide, by decide⟩

/-- Claim C5 amended: with overwrite disabled, a record whose source cell
yields a valid URL and whose target cell already holds at least one
attachment is classified skipped, with no download, upload or write
performed. -/
theorem claim_c5_amended (w : RecordWorld) (v : CellValue) (u : String)
    (l : List Attachment) :
    ¬ w.recordId = "" → w.readSrc = .ok v → normalizeCell v = some u →
    isValidUrl (jsTrim u) = true → w.readTarget = .ok (some l) → ¬ l = [] →
    (processRecord false w).1 = .skipped ∧ (processRecord false w).2 = [] := by
  intro hid hsrc hnorm hvalid htarget hne
  have htrim : ¬ jsTrim u = "" := by
    intro h
    rw [h] at hvalid
    exact absurd hvalid (by decide)
  have hcount : 0 < existingCount (some l) := by
    simpa [existingCount] using List.length_pos.mpr hne
  have h : processRecord false w = (.skipped, []) := by
    unfold processRecord
    rw [if_neg hid, hsrc]
    simp only [hnorm]
    rw [if_neg htrim]
    simp only [hvalid, Bool.not_true, if_neg (by simp : ¬ (False : Prop))]
    rw [htarget]
    simp [hcount]
  exact ⟨by rw [h], by rw [h]⟩

/-- Witness for the amended C5 at a concrete record. -/
theorem claim_c5_amended_witness :
    (processRecord false (RecordWorld.mk "r1" (Except.ok (.str "http://a.b/c"))
      (Except.ok (some [⟨"tokA", "a", 1, "t", 1⟩]))
      (Except.error "e") (Except.error "e") (Except.ok ()) (Except.ok [])
      (fun _ => Except.ok ()) (Except.ok none) 0)).1 = .skipped ∧
    (processRecord false (RecordWorld.mk "r1" (Except.ok (.str "http://a.b/c"))
      (Except.ok (some [⟨"tokA", "a", 1, "t", 1⟩]))
      (Except.error "e") (Except.error "e") (Except.ok ()) (Except.ok [])
      (fun _ => Except.ok ()) (Except.ok none) 0)).2 = [] :=
  claim_c5_amended (RecordWorld.mk "r1" (Except.ok (.str "http://a.b/c"))
      (Except.ok (some [⟨"tokA", "a", 1, "t", 1⟩]))
      (Except.error "e") (Except.error "e") (Except.ok ()) (Except.ok [])
      (fun _ => Except.ok ()) (Except.ok none) 0)
    (.str "http://a.b/c") "http://a.b/c" [⟨"tokA", "a", 1, "t", 1⟩]
    (by decide) rfl (by decide) (by decide) rfl (by decide)
